import Mathlib

/-!
Verification of the luma-playground rendering demos.

The repository contains three near-duplicate demo variants:
* variant A  — `src/main.ts` (tetrahedron, separate position/normal buffers,
  uploads `mvpMatrix` and `mvMatrix`);
* variant B1 — `src/unnamed/part_001` (tetrahedron, interleaved vertex buffer,
  uploads `modelViewMatrix` and `projectionMatrix`);
* variant B0 — `src/unnamed/part_000` (icosphere, single Y-rotation channel).

The math library (math.gl `Matrix4`/`Vector3`) and the animation engine
(luma.gl `Timeline`/`KeyFrames`) are external collaborators; the matrix and
vector operations are embedded below following their documented semantics,
and the timeline/keyframe evaluation is modelled from the spec where needed.
-/

noncomputable section

open Matrix

/-! ## Vector3 (math.gl) -/

/-- A 3-component real vector, embedding math.gl `Vector3`. -/
@[ext]
structure V3 where
  x : ℝ
  y : ℝ
  z : ℝ

/-- math.gl `Vector3.subtract` (componentwise). -/
def vsub (a b : V3) : V3 := ⟨a.x - b.x, a.y - b.y, a.z - b.z⟩

/-- math.gl `Vector3.cross`. -/
def vcross (a b : V3) : V3 :=
  ⟨a.y * b.z - a.z * b.y, a.z * b.x - a.x * b.z, a.x * b.y - a.y * b.x⟩

/-- math.gl `Vector3.magnitude`. -/
def vlen (v : V3) : ℝ := Real.sqrt (v.x * v.x + v.y * v.y + v.z * v.z)

/-- math.gl `Vector3.normalize`: divides each component by the magnitude
when the magnitude is nonzero, otherwise leaves the vector unchanged. -/
def vnormalize (v : V3) : V3 :=
  if vlen v = 0 then v else ⟨v.x / vlen v, v.y / vlen v, v.z / vlen v⟩

/-! ## Matrix4 (math.gl, column-vector convention) -/

/-- 4×4 real matrices, embedding math.gl `Matrix4`. -/
abbrev M4 := Matrix (Fin 4) (Fin 4) ℝ

/-- Rotation about the X axis. -/
def rotXmat (a : ℝ) : M4 :=
  !![1, 0, 0, 0;
     0, Real.cos a, -Real.sin a, 0;
     0, Real.sin a, Real.cos a, 0;
     0, 0, 0, 1]

/-- Rotation about the Y axis. -/
def rotYmat (a : ℝ) : M4 :=
  !![Real.cos a, 0, Real.sin a, 0;
     0, 1, 0, 0;
     -Real.sin a, 0, Real.cos a, 0;
     0, 0, 0, 1]

/-- Rotation about the Z axis. -/
def rotZmat (a : ℝ) : M4 :=
  !![Real.cos a, -Real.sin a, 0, 0;
     Real.sin a, Real.cos a, 0, 0;
     0, 0, 1, 0;
     0, 0, 0, 1]

/-- math.gl `Matrix4.rotateXYZ([rx, ry, rz])`: right-multiplies by the X, Y
and Z rotations in turn. -/
def rotateXYZ (m : M4) (rx ry rz : ℝ) : M4 := m * rotXmat rx * rotYmat ry * rotZmat rz

/-- math.gl `Matrix4.rotateY(a)`: right-multiplies by the Y rotation. -/
def rotateYm (m : M4) (a : ℝ) : M4 := m * rotYmat a

/-- math.gl `Matrix4.perspective({fovy, aspect, near, far})` (WebGL clip-space
convention); math.gl defaults are `near = 0.1`, `far = 500`. -/
def perspectiveM (fovy aspect near far : ℝ) : M4 :=
  let f := 1 / Real.tan (fovy / 2)
  !![f / aspect, 0, 0, 0;
     0, f, 0, 0;
     0, 0, (far + near) / (near - far), 2 * far * near / (near - far);
     0, 0, -1, 0]

/-- math.gl `Matrix4.lookAt({eye, center, up})` (gl-matrix convention;
the demos pass only `eye`, with defaults `center = [0,0,0]`, `up = [0,1,0]`). -/
def lookAtMat (eye center up : V3) : M4 :=
  let zax := vnormalize (vsub eye center)
  let xax := vnormalize (vcross up zax)
  let yax := vcross zax xax
  !![xax.x, xax.y, xax.z, -(xax.x * eye.x + xax.y * eye.y + xax.z * eye.z);
     yax.x, yax.y, yax.z, -(yax.x * eye.x + yax.y * eye.y + yax.z * eye.z);
     zax.x, zax.y, zax.z, -(zax.x * eye.x + zax.y * eye.y + zax.z * eye.z);
     0, 0, 0, 1]

/-- math.gl `Matrix4.transformAsPoint(v)`: applies the matrix with `w = 1`
and divides by the resulting `w` when it is nonzero. -/
def transformAsPoint (m : M4) (p : V3) : V3 :=
  let r := m.mulVec ![p.x, p.y, p.z, 1]
  let w := if r 3 = 0 then 1 else r 3
  ⟨r 0 / w, r 1 / w, r 2 / w⟩

/-! ## Tetrahedron geometry (variants A and B1) -/

/-- Tetrahedron vertex `v1` (`src/main.ts` line 95, `part_001` line 95). -/
def v1 : V3 := ⟨0, 0, 0⟩

/-- Tetrahedron vertex `v2`. -/
def v2 : V3 := ⟨1, 0, 0⟩

/-- Tetrahedron vertex `v3`. -/
def v3 : V3 := ⟨0, 1, 0⟩

/-- Tetrahedron vertex `v4`. -/
def v4 : V3 := ⟨0, 0, 1⟩

/-- `surfaceNormal` from `src/main.ts` lines 100–104:
`u = p2 - p1`, `v = p3 - p2`, result `u.cross(v).normalize()`. -/
def surfaceNormal (p1 p2 p3 : V3) : V3 :=
  vnormalize (vcross (vsub p2 p1) (vsub p3 p2))

/-- `calculateSurfaceNormal` from `part_001` lines 100–104 (same body as
`surfaceNormal` in `src/main.ts`). -/
def calculateSurfaceNormal (p1 p2 p3 : V3) : V3 :=
  vnormalize (vcross (vsub p2 p1) (vsub p3 p2))

/-- Face normal `fn1 = surfaceNormal(v1, v3, v2)`. -/
def fn1 : V3 := surfaceNormal v1 v3 v2

/-- Face normal `fn2 = surfaceNormal(v1, v4, v3)`. -/
def fn2 : V3 := surfaceNormal v1 v4 v3

/-- Face normal `fn3 = surfaceNormal(v1, v2, v4)`. -/
def fn3 : V3 := surfaceNormal v1 v2 v4

/-- Face normal `fn4 = surfaceNormal(v2, v3, v4)`. -/
def fn4 : V3 := surfaceNormal v2 v3 v4

/-- The position buffer of variant A (`src/main.ts` lines 112–119), viewed as
12 vec3 slots of the underlying `Float32Array`. -/
def positionBufferA : Fin 12 → V3 :=
  ![v1, v3, v2, v1, v4, v3, v1, v2, v4, v2, v3, v4]

/-- The vertex-normal buffer of variant A (`src/main.ts` lines 121–128):
each face normal repeated for the three vertices of its face. -/
def vertexNormalBufferA : Fin 12 → V3 :=
  ![fn1, fn1, fn1, fn2, fn2, fn2, fn3, fn3, fn3, fn4, fn4, fn4]

/-- The interleaved vertex buffer of variant B1 (`part_001` lines 113–118),
viewed as 24 vec3 slots: position and face normal alternate. -/
def vertexDataB1 : Fin 24 → V3 :=
  ![v1, fn1, v3, fn1, v2, fn1,
    v1, fn2, v4, fn2, v3, fn2,
    v1, fn3, v2, fn3, v4, fn3,
    v2, fn4, v3, fn4, v4, fn4]

/-! ## KeyFrames accessor state and the per-frame rotation formulas -/

/-- The state a luma.gl `KeyFrames` object reports through its accessors
`getStartData()`, `getEndData()` and `.factor` — the bracketing keyframe
values and the interpolation factor at the current channel time. -/
structure KFState where
  startData : ℝ
  endData : ℝ
  factor : ℝ

/-- X rotation angle, `src/main.ts` lines 193–195 (`part_001` lines 190–192):
`startRotationX + keyFramesX.factor * (endRotationX - startRotationX)`. -/
def rotationXOf (kfX : KFState) : ℝ :=
  kfX.startData + kfX.factor * (kfX.endData - kfX.startData)

/-- Y rotation angle, `src/main.ts` lines 197–199 (`part_001` lines 194–196):
`startRotationY + keyFramesY.factor * (endRotationY - startRotationX)`.
Note that the subtrahend is the X track's start value, as in the source. -/
def rotationYOf (kfX kfY : KFState) : ℝ :=
  kfY.startData + kfY.factor * (kfY.endData - kfX.startData)

/-- Rotation angle of variant B0, `part_000` lines 176–178:
`startRotation + rotationKeyFrames.factor * (endRotation - startRotation)`. -/
def rotationOfB0 (kf : KFState) : ℝ :=
  kf.startData + kf.factor * (kf.endData - kf.startData)

/-- Modelled from the spec: the interpolation result
`v0 + f * (v1 - v0)` with both bracketing values `v0`, `v1` taken from the
same track (spec §4.1), stated on the accessor state of that track. -/
def specInterpolate (kf : KFState) : ℝ :=
  kf.startData + kf.factor * (kf.endData - kf.startData)

/-! ## Scene constants and per-frame render steps -/

/-- Render-pass operations issued by `onRender`. -/
inductive RenderOp where
  | beginPass : List ℝ → RenderOp
  | draw : RenderOp
  | endPass : RenderOp

/-- Number of draw calls in a list of render operations. -/
def drawCount (ops : List RenderOp) : ℕ :=
  ops.countP fun op => match op with
    | RenderOp.draw => true
    | _ => false

/-- `eyePosition` of variant A (`src/main.ts` line 76) and of variant B1. -/
def eyePositionA : V3 := ⟨0, 0, 4⟩

/-- `lightPosition` of variant A (`src/main.ts` line 77) and of variant B1. -/
def lightPositionA : V3 := ⟨-2, 2, 4⟩

/-- `viewMatrix` of variant A: `new Matrix4().lookAt({ eye: eyePosition })`
(`src/main.ts` line 81); math.gl defaults supply center and up. -/
def viewMatrixA : M4 := lookAtMat eyePositionA ⟨0, 0, 0⟩ ⟨0, 1, 0⟩

/-- `eyePosition` of variant B0 (`part_000` line 82). -/
def eyePositionB0 : V3 := ⟨0, 1, 4⟩

/-- `lightPosition` of variant B0 (`part_000` line 83). -/
def lightPositionB0 : V3 := ⟨-2, 3, 4⟩

/-- `viewMatrix` of variant B0 (`part_000` line 86). -/
def viewMatrixB0 : M4 := lookAtMat eyePositionB0 ⟨0, 0, 0⟩ ⟨0, 1, 0⟩

/-- Mutable state of variant A's loop template: the matrix fields, the
lighting uniform block, the two attached keyframe tracks, and the `app`
uniform block contents last written to the uniform store. -/
structure StateA where
  mvpMatrix : M4
  viewMatrix : M4
  lighting : V3
  kfX : KFState
  kfY : KFState
  appMvp : M4
  appMv : M4

/-- The state variant A's constructor establishes (`src/main.ts` lines
80–81 and 160–164): identity `mvpMatrix`, the look-at view matrix, and the
lighting uniform set once to the view-transformed light position. The
keyframe-track state is driven externally by the attached timeline. -/
def initStateA (kfX kfY : KFState) : StateA :=
  { mvpMatrix := 1
    viewMatrix := viewMatrixA
    lighting := transformAsPoint viewMatrixA lightPositionA
    kfX := kfX
    kfY := kfY
    appMvp := 1
    appMv := 1 }

/-- `onRender` of variant A (`src/main.ts` lines 192–218): reads the track
accessors, builds `mvMatrix = new Matrix4(viewMatrix).rotateXYZ([rx, ry, 0])`,
overwrites `mvpMatrix` with the perspective matrix and right-multiplies by
`mvMatrix`, uploads both, then issues one draw inside a render pass. -/
def onRenderA (s : StateA) (aspect : ℝ) : StateA × List RenderOp :=
  let rotationX := rotationXOf s.kfX
  let rotationY := rotationYOf s.kfX s.kfY
  let mvMatrix := rotateXYZ s.viewMatrix rotationX rotationY 0
  let mvpMatrix := perspectiveM (Real.pi / 3) aspect 0.1 500 * mvMatrix
  ({ s with mvpMatrix := mvpMatrix, appMvp := mvpMatrix, appMv := mvMatrix },
   [RenderOp.beginPass [1, 1, 1, 1], RenderOp.draw, RenderOp.endPass])

/-- Mutable state of variant B1's loop template. -/
structure StateB1 where
  viewMatrix : M4
  projectionMatrix : M4
  lighting : V3
  kfX : KFState
  kfY : KFState
  appMv : M4
  appProj : M4

/-- `onRender` of variant B1 (`part_001` lines 189–211): same rotation reads
as variant A, `modelViewMatrix = new Matrix4(viewMatrix).rotateXYZ([rx, ry, 0])`,
`projectionMatrix.perspective({fovy, aspect})`, uploads both, one draw. -/
def onRenderB1 (s : StateB1) (aspect : ℝ) : StateB1 × List RenderOp :=
  let rotationX := rotationXOf s.kfX
  let rotationY := rotationYOf s.kfX s.kfY
  let modelViewMatrix := rotateXYZ s.viewMatrix rotationX rotationY 0
  let projectionMatrix := perspectiveM (Real.pi / 3) aspect 0.1 500
  ({ s with projectionMatrix := projectionMatrix,
            appMv := modelViewMatrix, appProj := projectionMatrix },
   [RenderOp.beginPass [1, 1, 1, 1], RenderOp.draw, RenderOp.endPass])

/-- Mutable state of variant B0's loop template. -/
structure StateB0 where
  viewMatrix : M4
  projectionMatrix : M4
  lighting : V3
  rotationKF : KFState
  appMv : M4
  appProj : M4

/-- `onRender` of variant B0 (`part_000` lines 175–193): single-axis
rotation, `modelViewMatrix = new Matrix4(viewMatrix).rotateY(rotation)`,
`projectionMatrix.perspective({fovy, aspect})`, uploads both, one draw. -/
def onRenderB0 (s : StateB0) (aspect : ℝ) : StateB0 × List RenderOp :=
  let rotation := rotationOfB0 s.rotationKF
  let modelViewMatrix := rotateYm s.viewMatrix rotation
  let projectionMatrix := perspectiveM (Real.pi / 3) aspect 0.1 500
  ({ s with projectionMatrix := projectionMatrix,
            appMv := modelViewMatrix, appProj := projectionMatrix },
   [RenderOp.beginPass [1, 1, 1, 1], RenderOp.draw, RenderOp.endPass])

/-! ## Rasterization parameters -/

/-- The `parameters` block passed to `new Model(...)`. -/
structure ModelParameters where
  cullMode : String
  depthWriteEnabled : Bool
  depthCompare : String

/-- `parameters` of variant A (`src/main.ts` lines 153–157). -/
def modelParametersA : ModelParameters :=
  { cullMode := "back", depthWriteEnabled := true, depthCompare := "less-equal" }

/-- `parameters` of variant B0 (`part_000` lines 142–146). -/
def modelParametersB0 : ModelParameters :=
  { cullMode := "back", depthWriteEnabled := true, depthCompare := "less-equal" }

/-- `parameters` of variant B1 (`part_001` lines 151–155). -/
def modelParametersB1 : ModelParameters :=
  { cullMode := "back", depthWriteEnabled := true, depthCompare := "less-equal" }

/-! ## Timeline channels and keyframe tracks

The channel and track configurations below are taken from the source; the
evaluation semantics (`Channel.advance`, `Channel.cyclePosition`,
`evaluateTrack`) is modelled from the spec because luma.gl's `Timeline` and
`KeyFrames` classes are engine code that is not part of this repository. -/

/-- `keyFrameData` of variants A and B1 (`src/main.ts` lines 166–170):
`[[0, 0], [2000, 2 * Math.PI]]`, shared by the X and the Y track. -/
def keyFrameData : List (ℝ × ℝ) := [(0, 0), (2000, 2 * Real.pi)]

/-- `rotationKeyFrameData` of variant B0 (`part_000` lines 154–157):
`[[0, 0], [5000, 2 * Math.PI]]`. -/
def rotationKeyFrameData : List (ℝ × ℝ) := [(0, 0), (5000, 2 * Real.pi)]

/-- Configuration of a timeline channel: playback-rate multiplier and cycle
duration in milliseconds (all demo channels repeat indefinitely). -/
structure ChannelConfig where
  rate : ℝ
  duration : ℝ

/-- `channelX` configuration (`src/main.ts` line 176): duration 2000, default
rate 1, infinite repeat. -/
def channelXConfig : ChannelConfig := ⟨1, 2000⟩

/-- `channelY` configuration (`src/main.ts` line 177): rate 0.7, duration
`2000 / 0.7`, infinite repeat. -/
def channelYConfig : ChannelConfig := ⟨0.7, 2000 / 0.7⟩

/-- `rotationChannel` configuration of variant B0 (`part_000` line 162):
duration 5000, default rate 1, infinite repeat. -/
def rotationChannelConfig : ChannelConfig := ⟨1, 5000⟩

/-- Modelled from the spec (§4.2): a channel's mutable state is its
configuration plus the accumulated channel-local elapsed time. -/
structure Channel extends ChannelConfig where
  elapsed : ℝ

/-- Modelled from the spec (§4.2): `advance(deltaMs)` adds `deltaMs * rate`
to the channel's elapsed time (no clamping for infinitely repeating
channels). -/
def Channel.advance (c : Channel) (dt : ℝ) : Channel :=
  { c with elapsed := c.elapsed + dt * c.rate }

/-- Modelled from the spec (§4.2): `cyclePosition = elapsedMs mod durationMs`,
the channel time handed to attached tracks. -/
def Channel.cyclePosition (c : Channel) : ℝ :=
  c.elapsed - c.duration * (⌊c.elapsed / c.duration⌋ : ℤ)

/-- Modelled from the spec (§4.1), helper walking consecutive keyframe pairs:
given the previous keyframe `(t0, v0)` and the remaining keyframes, returns
`v0 + (t - t0) / (t1 - t0) * (v1 - v0)` for the first bracketing pair, with
the `t1 = t0` guard returning `v0`, and the final value past the last
keyframe (boundary clamping, no extrapolation). -/
def evalSegments : ℝ × ℝ → List (ℝ × ℝ) → ℝ → ℝ
  | (_, v0), [], _ => v0
  | (t0, v0), (t1, v1) :: rest, t =>
      if t ≤ t1 then
        if t1 = t0 then v0
        else v0 + (t - t0) / (t1 - t0) * (v1 - v0)
      else evalSegments (t1, v1) rest t

/-- Modelled from the spec (§4.1): `KeyFrames` evaluation at a query time —
clamps to the first keyframe's value before the range, otherwise linearly
interpolates between the bracketing keyframes. An empty track is invalid
per the spec; the model returns 0 for it. -/
def evaluateTrack : List (ℝ × ℝ) → ℝ → ℝ
  | [], _ => 0
  | k0 :: rest, t => if t ≤ k0.1 then k0.2 else evalSegments k0 rest t

/-- First keyframe of a track (defaulting to `(0, 0)` for the empty track). -/
def trackFirst (l : List (ℝ × ℝ)) : ℝ × ℝ := l.headD (0, 0)

/-- Last keyframe of a track (defaulting to `(0, 0)` for the empty track). -/
def trackLast (l : List (ℝ × ℝ)) : ℝ × ℝ := l.getLastD (0, 0)

/-! ## Icosphere mesh upload (variant B0) -/

/-- The shape of `icoSphereFlat` as consumed by `part_000` lines 106–108:
1-based-indexed vertex and normal tables and a list of `[i, j]` face-corner
entries. The concrete mesh data lives in `icoSphereFlat.ts`, which is not
part of the analysed sources, so the buffer construction is verified for an
arbitrary mesh. -/
structure Mesh where
  vertices : List (ℝ × ℝ × ℝ)
  normals : List (ℝ × ℝ × ℝ)
  faces : List (ℕ × ℕ)

/-- The three floats a vec3 table entry contributes to the buffer. -/
def toFloats (v : ℝ × ℝ × ℝ) : List ℝ := [v.1, v.2.1, v.2.2]

/-- The six floats one face-corner entry `[i, j]` contributes:
`[...mesh.vertices[i - 1], ...mesh.normals[j - 1]]` (`part_000` line 107);
out-of-range indices are modelled by a zero default. -/
def faceFloats (m : Mesh) (ij : ℕ × ℕ) : List ℝ :=
  toFloats (m.vertices.getD (ij.1 - 1) (0, 0, 0)) ++
  toFloats (m.normals.getD (ij.2 - 1) (0, 0, 0))

/-- `vertexData` of variant B0 (`part_000` lines 106–108): the flat-mapped
interleaved buffer. -/
def vertexDataOf (m : Mesh) : List ℝ := m.faces.flatMap (faceFloats m)

/-- A one-face sample mesh used to instantiate the buffer-layout theorem. -/
def demoMesh : Mesh := ⟨[(1, 0, 0)], [(0, 1, 0)], [(1, 1)]⟩

/-! ## Concrete states used to instantiate universally quantified theorems -/

/-- A track-accessor state with factor 0 on the demo keyframe range: the
reported interpolated angle is 0. -/
def kfZero : KFState := ⟨0, 2 * Real.pi, 0⟩

/-- A variant-A state at rotation angle 0. -/
def sA0 : StateA := ⟨1, viewMatrixA, ⟨0, 0, 0⟩, kfZero, kfZero, 1, 1⟩

/-- A variant-B1 state at rotation angle 0. -/
def sB10 : StateB1 := ⟨viewMatrixA, 1, ⟨0, 0, 0⟩, kfZero, kfZero, 1, 1⟩

/-- A variant-B0 state at rotation angle 0. -/
def sB00 : StateB0 := ⟨viewMatrixB0, 1, ⟨0, 0, 0⟩, kfZero, 1, 1⟩

/-- A variant-A state with distinctive values in the fields `onRender` is
allowed to depend on only through the tracks and the view matrix. -/
def s8a : StateA := ⟨1, viewMatrixA, ⟨0, 0, 0⟩, kfZero, kfZero, 1, 1⟩

/-- A second variant-A state: identical track state and view matrix to
`s8a`, but different previous-frame matrix and uniform contents. -/
def s8b : StateA := ⟨0, viewMatrixA, ⟨5, 6, 7⟩, kfZero, kfZero, 0, 0⟩

/-! ## Supporting lemmas -/

lemma rotXmat_zero : rotXmat 0 = 1 := by
  ext i j
  fin_cases i <;> fin_cases j <;>
    simp [rotXmat, Matrix.one_apply, Matrix.vecHead, Matrix.vecTail]

lemma rotYmat_zero : rotYmat 0 = 1 := by
  ext i j
  fin_cases i <;> fin_cases j <;>
    simp [rotYmat, Matrix.one_apply, Matrix.vecHead, Matrix.vecTail]

lemma rotZmat_zero : rotZmat 0 = 1 := by
  ext i j
  fin_cases i <;> fin_cases j <;>
    simp [rotZmat, Matrix.one_apply, Matrix.vecHead, Matrix.vecTail]

lemma rotateXYZ_zero (m : M4) : rotateXYZ m 0 0 0 = m := by
  rw [rotateXYZ, rotXmat_zero, rotYmat_zero, rotZmat_zero, mul_one, mul_one, mul_one]

lemma rotateYm_zero (m : M4) : rotateYm m 0 = m := by
  rw [rotateYm, rotYmat_zero, mul_one]

lemma faceFloats_length (m : Mesh) (ij : ℕ × ℕ) : (faceFloats m ij).length = 6 := by
  simp [faceFloats, toFloats]

lemma flatMap6_length {α : Type} (g : α → List ℝ) (hg : ∀ a, (g a).length = 6) :
    ∀ l : List α, (l.flatMap g).length = 6 * l.length := by
  intro l
  induction l with
  | nil => simp
  | cons a t ih =>
      simp only [List.flatMap_cons, List.length_append, ih, hg, List.length_cons]
      ring

lemma flatMap6_segment {α : Type} (g : α → List ℝ) (hg : ∀ a, (g a).length = 6) :
    ∀ (l : List α) (k : ℕ) (h : k < l.length),
      ((l.flatMap g).drop (6 * k)).take 6 = g (l.get ⟨k, h⟩) := by
  intro l
  induction l with
  | nil => intro k h; simp at h
  | cons a t ih =>
      intro k h
      cases k with
      | zero =>
          simp only [Nat.mul_zero, List.drop_zero, List.flatMap_cons, List.get]
          rw [show (6 : ℕ) = (g a).length from (hg a).symm, List.take_left]
      | succ k =>
          have hstep : 6 * (k + 1) = (g a).length + 6 * k := by rw [hg a]; ring
          simp only [List.flatMap_cons, List.get]
          rw [hstep, ← List.drop_drop, List.drop_left]
          exact ih k (by simpa using h)

lemma vlen_mk (a b c : ℝ) : vlen ⟨a, b, c⟩ = Real.sqrt (a * a + b * b + c * c) := rfl

lemma vlen_vnormalize (v : V3) (h : vlen v ≠ 0) : vlen (vnormalize v) = 1 := by
  have hS : 0 ≤ v.x * v.x + v.y * v.y + v.z * v.z :=
    add_nonneg (add_nonneg (mul_self_nonneg _) (mul_self_nonneg _)) (mul_self_nonneg _)
  have hsq : vlen v * vlen v = v.x * v.x + v.y * v.y + v.z * v.z :=
    Real.mul_self_sqrt hS
  have hS0 : v.x * v.x + v.y * v.y + v.z * v.z ≠ 0 := by
    intro h0
    exact h (by rw [vlen, h0, Real.sqrt_zero])
  rw [vnormalize, if_neg h, vlen_mk]
  have harg : v.x / vlen v * (v.x / vlen v) + v.y / vlen v * (v.y / vlen v) +
      v.z / vlen v * (v.z / vlen v)
      = (v.x * v.x + v.y * v.y + v.z * v.z) / (vlen v * vlen v) := by ring
  rw [harg, hsq, div_self hS0, Real.sqrt_one]

lemma cross1_eq : vcross (vsub v3 v1) (vsub v2 v3) = ⟨0, 0, -1⟩ := by
  simp [vcross, vsub, v1, v2, v3]

lemma cross2_eq : vcross (vsub v4 v1) (vsub v3 v4) = ⟨-1, 0, 0⟩ := by
  simp [vcross, vsub, v1, v3, v4]

lemma cross3_eq : vcross (vsub v2 v1) (vsub v4 v2) = ⟨0, -1, 0⟩ := by
  simp [vcross, vsub, v1, v2, v4]

lemma cross4_eq : vcross (vsub v3 v2) (vsub v4 v3) = ⟨1, 1, 1⟩ := by
  simp [vcross, vsub, v2, v3, v4]

lemma vlen_fn1 : vlen fn1 = 1 := by
  rw [fn1, surfaceNormal, cross1_eq]
  exact vlen_vnormalize _ (by rw [vlen_mk]; norm_num)

lemma vlen_fn2 : vlen fn2 = 1 := by
  rw [fn2, surfaceNormal, cross2_eq]
  exact vlen_vnormalize _ (by rw [vlen_mk]; norm_num)

lemma vlen_fn3 : vlen fn3 = 1 := by
  rw [fn3, surfaceNormal, cross3_eq]
  exact vlen_vnormalize _ (by rw [vlen_mk]; norm_num)

lemma vlen_fn4 : vlen fn4 = 1 := by
  rw [fn4, surfaceNormal, cross4_eq]
  exact vlen_vnormalize _ (by rw [vlen_mk]; norm_num [Real.sqrt_eq_zero'])

lemma channelX_cyclePosition_1000 :
    (Channel.advance ⟨channelXConfig, 0⟩ 1000).cyclePosition = 1000 := by
  have hfloor : ⌊(1000 : ℝ) / 2000⌋ = 0 := by
    rw [Int.floor_eq_zero_iff]
    constructor <;> norm_num
  simp only [Channel.advance, Channel.cyclePosition, channelXConfig]
  norm_num [hfloor]

lemma evaluateTrack_keyFrameData_1000 : evaluateTrack keyFrameData 1000 = Real.pi := by
  rw [keyFrameData]
  simp only [evaluateTrack, evalSegments]
  rw [if_neg (by norm_num), if_pos (by norm_num), if_neg (by norm_num)]
  ring

/-! ## Claim theorems -/

/-- C1: at a track-accessor state where the X track's start value (1)
differs from the Y track's start value (0), the Y rotation angle computed by
`onRender` (`rotationYOf`, embedding `src/main.ts` line 199 and `part_001`
line 196) is 1, while the spec's same-track interpolation formula gives 2 —
the code reads the X track's start value inside the difference, so the claim
that each angle is computed from its own track's accessors fails. -/
theorem C1_rotationY_reads_x_track_start :
    rotationYOf ⟨1, 0, 0⟩ ⟨0, 2, 1⟩ = 1 ∧
    specInterpolate ⟨0, 2, 1⟩ = 2 ∧
    rotationYOf ⟨1, 0, 0⟩ ⟨0, 2, 1⟩ ≠ specInterpolate ⟨0, 2, 1⟩ := by
  refine ⟨by norm_num [rotationYOf], by norm_num [specInterpolate],
    by norm_num [rotationYOf, specInterpolate]⟩

/-- C2: for the track with keyframes `[(0, 0), (2000, 2π)]` attached to a
channel of duration 2000 with infinite repeat, advancing the timeline by
1000 ms from the start and evaluating the track yields π to within 1e-6
(spec-modelled timeline/keyframe semantics). -/
theorem C2_track_value_after_advance_1000 :
    |evaluateTrack keyFrameData
        (Channel.cyclePosition (Channel.advance ⟨channelXConfig, 0⟩ 1000)) - Real.pi|
      ≤ 1e-6 := by
  rw [channelX_cyclePosition_1000, evaluateTrack_keyFrameData_1000, sub_self, abs_zero]
  norm_num

/-- C3: the constructor computes the view matrix by look-at from the eye
position and sets the lighting uniform once to the view-transformed light
position; the per-frame render step never changes the view matrix, the
lighting uniform, or the keyframe-track state, so a frame is retryable with
unchanged animation state. -/
theorem C3_construction_once_render_preserves :
    (∀ kfX kfY : KFState,
        (initStateA kfX kfY).viewMatrix = lookAtMat eyePositionA ⟨0, 0, 0⟩ ⟨0, 1, 0⟩ ∧
        (initStateA kfX kfY).lighting = transformAsPoint viewMatrixA lightPositionA) ∧
    (∀ (s : StateA) (aspect : ℝ),
        (onRenderA s aspect).1.viewMatrix = s.viewMatrix ∧
        (onRenderA s aspect).1.lighting = s.lighting ∧
        (onRenderA s aspect).1.kfX = s.kfX ∧
        (onRenderA s aspect).1.kfY = s.kfY) :=
  ⟨fun _ _ => ⟨rfl, rfl⟩, fun _ _ => ⟨rfl, rfl, rfl, rfl⟩⟩

/-- C4: in variant A (the only variant computing a model-view-projection
matrix), every frame uploads `mvpMatrix` equal to the perspective matrix
recomputed from the current aspect ratio multiplied by the model-view
matrix, which itself is the view matrix composed with the current
rotation. -/
theorem C4_mvp_is_projection_times_modelview :
    ∀ (s : StateA) (aspect : ℝ),
      (onRenderA s aspect).1.appMvp =
        perspectiveM (Real.pi / 3) aspect 0.1 500 * (onRenderA s aspect).1.appMv ∧
      (onRenderA s aspect).1.appMv =
        rotateXYZ s.viewMatrix (rotationXOf s.kfX) (rotationYOf s.kfX s.kfY) 0 :=
  fun _ _ => ⟨rfl, rfl⟩

/-- C5: in every variant, a frame whose rotation angles all read 0 uploads a
model-view matrix equal to the raw look-at view matrix (rotation by zero is
the identity). -/
theorem C5_zero_rotation_gives_view_matrix :
    (∀ (s : StateA) (aspect : ℝ),
        rotationXOf s.kfX = 0 → rotationYOf s.kfX s.kfY = 0 →
        (onRenderA s aspect).1.appMv = s.viewMatrix) ∧
    (∀ (s : StateB1) (aspect : ℝ),
        rotationXOf s.kfX = 0 → rotationYOf s.kfX s.kfY = 0 →
        (onRenderB1 s aspect).1.appMv = s.viewMatrix) ∧
    (∀ (s : StateB0) (aspect : ℝ),
        rotationOfB0 s.rotationKF = 0 →
        (onRenderB0 s aspect).1.appMv = s.viewMatrix) := by
  refine ⟨fun s a h1 h2 => ?_, fun s a h1 h2 => ?_, fun s a h1 => ?_⟩
  · show rotateXYZ s.viewMatrix (rotationXOf s.kfX) (rotationYOf s.kfX s.kfY) 0
        = s.viewMatrix
    rw [h1, h2, rotateXYZ_zero]
  · show rotateXYZ s.viewMatrix (rotationXOf s.kfX) (rotationYOf s.kfX s.kfY) 0
        = s.viewMatrix
    rw [h1, h2, rotateXYZ_zero]
  · show rotateYm s.viewMatrix (rotationOfB0 s.rotationKF) = s.viewMatrix
    rw [h1, rotateYm_zero]

/-- C5 witness: concrete zero-rotation states for all three variants. -/
theorem C5_zero_rotation_witness :
    (onRenderA sA0 1).1.appMv = sA0.viewMatrix ∧
    (onRenderB1 sB10 1).1.appMv = sB10.viewMatrix ∧
    (onRenderB0 sB00 1).1.appMv = sB00.viewMatrix :=
  ⟨C5_zero_rotation_gives_view_matrix.1 sA0 1
      (by norm_num [rotationXOf, sA0, kfZero])
      (by norm_num [rotationYOf, sA0, kfZero]),
   C5_zero_rotation_gives_view_matrix.2.1 sB10 1
      (by norm_num [rotationXOf, sB10, kfZero])
      (by norm_num [rotationYOf, sB10, kfZero]),
   C5_zero_rotation_gives_view_matrix.2.2 sB00 1
      (by norm_num [rotationOfB0, sB00, kfZero])⟩

/-- C6: the claim fails for `channelY` — the Y track's keyframes end at time
2000 while the owning channel's configured duration is `2000 / 0.7`, so the
track does not reach 2π at a time equal to the channel duration there. -/
theorem C6_channelY_duration_mismatch :
    (trackLast keyFrameData).1 = 2000 ∧
    channelYConfig.duration = 2000 / 0.7 ∧
    (trackLast keyFrameData).1 ≠ channelYConfig.duration := by
  refine ⟨by simp [trackLast, keyFrameData], rfl, ?_⟩
  simp only [trackLast, keyFrameData, channelYConfig, List.getLastD]
  norm_num

/-- C6 (amended): every rotation track runs from value 0 at time 0 to value
2π at its last keyframe time — 2000 in the tetrahedron variants and 5000 in
the icosphere variant; that end time equals the owning channel's duration
for `channelX` (2000) and the icosphere rotation channel (5000), but not for
`channelY`, whose duration `2000 / 0.7` exceeds its track's keyframe end
time 2000. -/
theorem C6_cycle_covers_two_pi_amended :
    trackFirst keyFrameData = (0, 0) ∧
    trackLast keyFrameData = (2000, 2 * Real.pi) ∧
    channelXConfig.duration = (trackLast keyFrameData).1 ∧
    trackFirst rotationKeyFrameData = (0, 0) ∧
    trackLast rotationKeyFrameData = (5000, 2 * Real.pi) ∧
    rotationChannelConfig.duration = (trackLast rotationKeyFrameData).1 ∧
    channelYConfig.duration ≠ (trackLast keyFrameData).1 := by
  refine ⟨rfl, by simp [trackLast, keyFrameData], by simp [trackLast, keyFrameData,
    channelXConfig], rfl, by simp [trackLast, rotationKeyFrameData],
    by simp [trackLast, rotationKeyFrameData, rotationChannelConfig], ?_⟩
  simp only [trackLast, keyFrameData, channelYConfig, List.getLastD]
  norm_num

/-- C7: all three variants construct their model with the same fixed
rasterization state — back-face culling, depth writes enabled, depth compare
"less-equal" — and every frame's render step issues exactly one draw call. -/
theorem C7_fixed_raster_state_one_draw :
    modelParametersA.cullMode = "back" ∧
    modelParametersA.depthWriteEnabled = true ∧
    modelParametersA.depthCompare = "less-equal" ∧
    modelParametersB0 = modelParametersA ∧
    modelParametersB1 = modelParametersA ∧
    (∀ (s : StateA) (a : ℝ), drawCount (onRenderA s a).2 = 1) ∧
    (∀ (s : StateB1) (a : ℝ), drawCount (onRenderB1 s a).2 = 1) ∧
    (∀ (s : StateB0) (a : ℝ), drawCount (onRenderB0 s a).2 = 1) :=
  ⟨rfl, rfl, rfl, rfl, rfl, fun _ _ => rfl, fun _ _ => rfl, fun _ _ => rfl⟩

/-- C8: the frame output is a pure function of the track-accessor state, the
(construction-constant) view matrix, and the aspect ratio: two states that
agree on those — whatever their previous-frame matrices, lighting and
uniform contents — produce identical uploaded matrices. -/
theorem C8_render_deterministic :
    ∀ (s1 s2 : StateA) (aspect : ℝ),
      s1.kfX = s2.kfX → s1.kfY = s2.kfY → s1.viewMatrix = s2.viewMatrix →
      (onRenderA s1 aspect).1.appMvp = (onRenderA s2 aspect).1.appMvp ∧
      (onRenderA s1 aspect).1.appMv = (onRenderA s2 aspect).1.appMv := by
  intro s1 s2 a h1 h2 h3
  refine ⟨?_, ?_⟩ <;> (dsimp only [onRenderA]; rw [h1, h2, h3])

/-- C8 witness: two states with equal track state and view matrix but
different previous matrix and uniform contents produce the same outputs. -/
theorem C8_render_deterministic_witness :
    (onRenderA s8a 1).1.appMvp = (onRenderA s8b 1).1.appMvp ∧
    (onRenderA s8a 1).1.appMv = (onRenderA s8b 1).1.appMv :=
  C8_render_deterministic s8a s8b 1 rfl rfl rfl

/-- C9: in the tetrahedron variants, all three vertices of each of the four
faces carry the same face normal, equal to the normalized cross product
`(p2 - p1) × (p3 - p2)` of that face's vertices in buffer order, and every
stored normal has unit length — for variant A's separate normal buffer and
for variant B1's interleaved buffer (normals in the odd vec3 slots). -/
theorem C9_face_normals_unit_and_shared :
    (∀ (f : Fin 4) (k : Fin 3),
        vertexNormalBufferA ⟨3 * f.1 + k.1, by have := f.2; have := k.2; omega⟩ =
          surfaceNormal (positionBufferA ⟨3 * f.1, by have := f.2; omega⟩)
            (positionBufferA ⟨3 * f.1 + 1, by have := f.2; omega⟩)
            (positionBufferA ⟨3 * f.1 + 2, by have := f.2; omega⟩)) ∧
    (∀ i : Fin 12, vlen (vertexNormalBufferA i) = 1) ∧
    (∀ (f : Fin 4) (k : Fin 3),
        vertexDataB1 ⟨6 * f.1 + 2 * k.1 + 1, by have := f.2; have := k.2; omega⟩ =
          calculateSurfaceNormal (vertexDataB1 ⟨6 * f.1, by have := f.2; omega⟩)
            (vertexDataB1 ⟨6 * f.1 + 2, by have := f.2; omega⟩)
            (vertexDataB1 ⟨6 * f.1 + 4, by have := f.2; omega⟩)) ∧
    (∀ (f : Fin 4) (k : Fin 3),
        vlen (vertexDataB1 ⟨6 * f.1 + 2 * k.1 + 1, by have := f.2; have := k.2; omega⟩)
          = 1) := by
  refine ⟨fun f k => ?_, fun i => ?_, fun f k => ?_, fun f k => ?_⟩
  · fin_cases f <;> fin_cases k <;> rfl
  · fin_cases i <;>
      first
        | exact vlen_fn1
        | exact vlen_fn2
        | exact vlen_fn3
        | exact vlen_fn4
  · fin_cases f <;> fin_cases k <;> rfl
  · fin_cases f <;> fin_cases k <;>
      first
        | exact vlen_fn1
        | exact vlen_fn2
        | exact vlen_fn3
        | exact vlen_fn4

/-- C10: for any mesh, the interleaved buffer built by variant B0 holds, for
the k-th face entry `[i, j]`, the 3 floats of `vertices[i-1]` followed by
the 3 floats of `normals[j-1]` at float offset `6k`; its total length is
exactly `6 * faces.length` floats, so with `vertexCount = faces.length` and
byte stride 24 every attribute read at byte offsets 0 and 12 stays within
the buffer's byte size. -/
theorem C10_interleaved_buffer_layout :
    ∀ m : Mesh,
      (vertexDataOf m).length = 6 * m.faces.length ∧
      (∀ (k : ℕ) (h : k < m.faces.length),
          ((vertexDataOf m).drop (6 * k)).take 6 = faceFloats m (m.faces.get ⟨k, h⟩)) ∧
      (∀ vtx : ℕ, vtx < m.faces.length →
          24 * vtx + 12 + 12 ≤ 4 * (vertexDataOf m).length) := by
  intro m
  have hlen : (vertexDataOf m).length = 6 * m.faces.length :=
    flatMap6_length (faceFloats m) (faceFloats_length m) m.faces
  refine ⟨hlen,
    fun k h => flatMap6_segment (faceFloats m) (faceFloats_length m) m.faces k h,
    fun vtx hv => ?_⟩
  rw [hlen]
  omega

/-- C10 witness: the layout and the bounds check instantiated on a concrete
one-face mesh at vertex index 0. -/
theorem C10_interleaved_buffer_layout_witness :
    ((vertexDataOf demoMesh).drop (6 * 0)).take 6 =
      faceFloats demoMesh (demoMesh.faces.get ⟨0, by decide⟩) ∧
    24 * 0 + 12 + 12 ≤ 4 * (vertexDataOf demoMesh).length :=
  ⟨(C10_interleaved_buffer_layout demoMesh).2.1 0 (by decide),
   (C10_interleaved_buffer_layout demoMesh).2.2 0 (by decide)⟩

end
